import Mathlib

/-!
Verification development for the OMusic repository (VelaOS music client).

The definitions below are shallow embeddings, translated from the JavaScript
sources of the repository:
  * `src/utils/lyric_cook.js`   — lyric parsing and normalization (namespace `Lyr`),
  * `src/services/player.js`    — playback orchestrator (namespace `Player`),
  * `src/services/download.js`  — download queue manager (namespace `Dl`),
  * the cover-resolution part of the api service — namespace `Cover`.

Modelling conventions.  Track ids are an explicit sum of the two value shapes
the code stores (`number` or `string`).  Lyric timestamps, which the source
computes as the float `mm * 60 + ss + ms / 1000` seconds, are represented by
their exact value in milliseconds (`(mm * 60 + ss) * 1000 + ms : ℕ`): every
timestamp the code can build is an exact multiple of one millisecond, doubles
represent these values order- and equality-faithfully, and `LyricEntry.timeSec`
recovers the rational number of seconds.  Fallible external effects (network,
file placement) are passed in as explicit outcome parameters of type
`Except`/`Option`.
-/

namespace OMusic

/-- Identity values used for tracks: the code stores either a JS number or a
JS string in the `id` field.  `===` on these primitives is constructor and
value equality, which is exactly `DecidableEq` on this type. -/
inductive JsId where
  | num (n : Int)
  | str (s : String)
deriving DecidableEq, Repr

/-- Truthiness of an id value in JS (`0` and `""` are falsy). -/
def jsTruthy : JsId → Bool
  | .num n => n != 0
  | .str s => s != ""

/-- String(id) — how template literals render an id into a file path. -/
def jsIdStr : JsId → String
  | .num n => toString n
  | .str s => s

/-- Decidable equality for `Except` outcomes, used to evaluate the models on
concrete inputs. -/
instance {α β : Type} [DecidableEq α] [DecidableEq β] : DecidableEq (Except α β) :=
  fun a b =>
    match a, b with
    | .ok x, .ok y =>
      if h : x = y then isTrue (by rw [h]) else isFalse (by simp [h])
    | .error x, .error y =>
      if h : x = y then isTrue (by rw [h]) else isFalse (by simp [h])
    | .ok _, .error _ => isFalse (by simp)
    | .error _, .ok _ => isFalse (by simp)

namespace Lyr

/-- One parsed lyric line: `{time, text}` as produced by `parseLyric`, with
the time held in exact milliseconds. -/
structure LyricEntry where
  timeMs : ℕ
  text : String
deriving DecidableEq, Repr

/-- Time of an entry in seconds, the unit the source stores. -/
def LyricEntry.timeSec (e : LyricEntry) : ℚ := (e.timeMs : ℚ) / 1000

/-- Numeric value of a digit character. -/
def dval (c : Char) : Nat := c.toNat - 48

/-- Match the minutes group `\d{1,2}` followed by the literal `:` of the tag
regex `\[(\d{1,2}):(\d{2})(?:[.:](\d{1,3}))?\]`, greedily (two digits first,
then one), returning the minutes value and the remaining characters. -/
def parseMin : List Char → Option (Nat × List Char)
  | a :: b :: c :: r =>
    if a.isDigit && b.isDigit && c == ':' then some (10 * dval a + dval b, r)
    else if a.isDigit && b == ':' then some (dval a, c :: r)
    else none
  | [a, b] => if a.isDigit && b == ':' then some (dval a, []) else none
  | _ => none

/-- Match the seconds group `(\d{2})` (exactly two digits). -/
def parseSec : List Char → Option (Nat × List Char)
  | a :: b :: r =>
    if a.isDigit && b.isDigit then some (10 * dval a + dval b, r) else none
  | _ => none

/-- Three fractional digits followed by `]`; the value is taken verbatim as
milliseconds (`frac.slice(0,3).padEnd(3,"0")` on a 3-digit capture). -/
def frac3 : List Char → Option (Nat × List Char)
  | a :: b :: c :: ']' :: r =>
    if a.isDigit && b.isDigit && c.isDigit then
      some (100 * dval a + 10 * dval b + dval c, r)
    else none
  | _ => none

/-- Two fractional digits followed by `]`; interpreted as hundredths
(`parseInt(frac, 10) * 10` milliseconds). -/
def frac2 : List Char → Option (Nat × List Char)
  | a :: b :: ']' :: r =>
    if a.isDigit && b.isDigit then some ((10 * dval a + dval b) * 10, r) else none
  | _ => none

/-- One fractional digit followed by `]`; interpreted as tenths
(`parseInt(frac, 10) * 100` milliseconds). -/
def frac1 : List Char → Option (Nat × List Char)
  | a :: ']' :: r => if a.isDigit then some (dval a * 100, r) else none
  | _ => none

/-- Greedy alternatives for the fractional digits of `[.:](\d{1,3})`. -/
def fracAlts (r : List Char) : Option (Nat × List Char) :=
  (frac3 r).orElse (fun _ => (frac2 r).orElse (fun _ => frac1 r))

/-- Match the optional fraction `(?:[.:](\d{1,3}))?` followed by the closing
`]`, returning the millisecond contribution.  The optional group is greedy:
with a separator present the digits must parse, because falling back to the
empty alternative would require `]` where the separator stands. -/
def parseClose : List Char → Option (Nat × List Char)
  | ']' :: r => some (0, r)
  | s :: r => if s == '.' || s == ':' then fracAlts r else none
  | [] => none

/-- Match the whole time-tag regex `\[(\d{1,2}):(\d{2})(?:[.:](\d{1,3}))?\]`
at the head of the character list, returning the tag instant
`mm * 60 + ss + ms / 1000` seconds — held as exact milliseconds — and the
characters after the tag. -/
def matchTag : List Char → Option (ℕ × List Char)
  | '[' :: rest =>
    match parseMin rest with
    | none => none
    | some (mm, r1) =>
      match parseSec r1 with
      | none => none
      | some (ss, r2) =>
        match parseClose r2 with
        | none => none
        | some (ms, r3) => some ((mm * 60 + ss) * 1000 + ms, r3)
  | _ => none

/-- Scan a line left to right the way `timeRe.exec` / `String.replace` do:
at each position try the tag regex; on a match record the time and drop the
matched substring, otherwise keep the character and move on.  The first
component collects all tag times of the line, the second is the line with
every match removed.  `fuel` bounds the recursion; each step consumes at
least one character, so `fuel = length` is always sufficient. -/
def scanLineF : Nat → List Char → List ℕ × List Char
  | 0, l => ([], l)
  | _ + 1, [] => ([], [])
  | fuel + 1, c :: cs =>
    match matchTag (c :: cs) with
    | some (t, rest) =>
      let p := scanLineF fuel rest
      (t :: p.1, p.2)
    | none =>
      let p := scanLineF fuel cs
      (p.1, c :: p.2)

/-- Scan a full line with adequate fuel. -/
def scanLine (l : List Char) : List ℕ × List Char := scanLineF l.length l

/-- Whitespace trimming of `String.prototype.trim` (restricted to the ASCII
whitespace characters that occur in lyric data). -/
def trimChars (l : List Char) : List Char :=
  ((l.dropWhile Char.isWhitespace).reverse.dropWhile Char.isWhitespace).reverse

/-- Split on newline characters exactly like `lrcString.split("\n")`:
consecutive separators and boundary separators yield empty segments. -/
def splitLines : List Char → List (List Char)
  | [] => [[]]
  | '\n' :: r => [] :: splitLines r
  | c :: r =>
    match splitLines r with
    | s :: ss => (c :: s) :: ss
    | [] => [[c]]

/-- Process one physical line of the LRC input: collect its time tags, strip
them, trim the remaining text; a line with no tag or with empty remaining
text contributes nothing, otherwise one entry per tag, all sharing the text. -/
def parseLine (raw : List Char) : List LyricEntry :=
  if raw = [] then []
  else if (scanLine raw).1 = [] then []
  else if trimChars (scanLine raw).2 = [] then []
  else (scanLine raw).1.map fun t => ⟨t, String.mk (trimChars (scanLine raw).2)⟩

/-- All entries collected from all lines, in line order, before sorting. -/
def rawEntries (lrc : String) : List LyricEntry :=
  ((splitLines lrc.data).map parseLine).flatten

/-- Comparison used by `result.sort((a, b) => a.time - b.time)`. -/
def leT (a b : LyricEntry) : Prop := a.timeMs ≤ b.timeMs

instance : DecidableRel leT :=
  fun a b => inferInstanceAs (Decidable (a.timeMs ≤ b.timeMs))

instance : IsTotal LyricEntry leT := ⟨fun a b => Nat.le_total a.timeMs b.timeMs⟩

instance : IsTrans LyricEntry leT := ⟨fun _ _ _ h1 h2 => le_trans h1 h2⟩

/-- Character of a decimal digit, for quantifying over digit characters. -/
def digitChar (d : Fin 10) : Char := Char.ofNat (48 + d.val)

/-- Embedding of `parseLyric` from `src/utils/lyric_cook.js`: split on
newlines, parse each line, sort by time, and fall back to the single
placeholder entry when nothing survives. -/
def parseLyric (lrc : String) : List LyricEntry :=
  if (List.insertionSort leT (rawEntries lrc)).isEmpty then [⟨0, "暂无歌词"⟩]
  else List.insertionSort leT (rawEntries lrc)

/-- Raw lyric channel as served by the catalog: `{version, lyric}`. -/
structure RawChannel where
  lyric : Option String
  version : Option Int
deriving DecidableEq, Repr

/-- Contributor record of the raw payload (`lyricUser` / `transUser`). -/
structure RawUser where
  userid : Option Int
  nickname : Option String
  uptime : Option Int
deriving DecidableEq, Repr

/-- Raw lyric payload shape consumed by `cookLyricsFromRaw`. -/
structure RawLyric where
  lrc : Option RawChannel
  tlyric : Option RawChannel
  romalrc : Option RawChannel
  sgc : Bool
  sfy : Bool
  qfy : Bool
  lyricUser : Option RawUser
  transUser : Option RawUser
deriving DecidableEq, Repr

/-- Contributor record kept in the cooked structure. -/
structure LyricUser where
  uid : Int
  name : String
  uptime : Int
deriving DecidableEq, Repr

/-- One cooked line `{t, o, tr?, ro?}` (time in exact milliseconds). -/
structure CookedLine where
  t : ℕ
  o : String
  tr : Option String
  ro : Option String
deriving DecidableEq, Repr

/-- Cooked (v3) lyric structure produced by `cookLyricsFromRaw`. -/
structure Cooked where
  v : ℕ
  songId : String
  type : String
  sgc : Bool
  sfy : Bool
  qfy : Bool
  verLrc : Int
  verTlyric : Int
  verRomalrc : Int
  byLyric : Option LyricUser
  byTrans : Option LyricUser
  lines : List CookedLine
deriving DecidableEq, Repr

/-- Lyric text of a channel when it is truthy (`raw?.ch?.lyric ? ... : null`):
present and non-empty. -/
def chLyric : Option RawChannel → Option String
  | some ch =>
    match ch.lyric with
    | some s => if s ≠ "" then some s else none
    | none => none
  | none => none

/-- Whether a channel contributes a parsed array in `cookLyricsFromRaw`. -/
def chPresent (c : Option RawChannel) : Bool := (chLyric c).isSome

/-- Embedding of `pickLyricUser`: keep the minimal contributor record, or
`null` when neither a non-zero uid nor a name is available. -/
def pickLyricUser : Option RawUser → Option LyricUser
  | none => none
  | some u =>
    let uid := u.userid
    let name := u.nickname.getD ""
    if uid.getD 0 = 0 && name = "" then none
    else some ⟨uid.getD 0, name, u.uptime.getD 0⟩

/-- Alignment map built by `createMap`: entries `(time key, trimmed text)` in
insertion order, `null` when the source array is missing/empty or no entry
has non-empty text.  The JS `Map` keys are `time.toFixed(3)`, which on these
values is exactly the millisecond count. -/
def createMap : Option (List LyricEntry) → Option (List (ℕ × String))
  | none => none
  | some l =>
    if l = [] then none
    else
      let m := l.foldl
        (fun acc it =>
          let val := String.mk (trimChars it.text.data)
          if val ≠ "" then acc ++ [(it.timeMs, val)] else acc) []
      if m = [] then none else some m

/-- Lookup in the alignment map; a later `Map.set` on the same key wins. -/
def mapGet (m : List (ℕ × String)) (k : ℕ) : Option String :=
  m.reverse.lookup k

/-- Truthiness filter for `if (tr) out.tr = tr`. -/
def truthyStr : Option String → Option String
  | some v => if v = "" then none else some v
  | none => none

/-- Embedding of `cookLyricsFromRaw` from `src/utils/lyric_cook.js`: parse the
three channels, classify the lyric type from which secondary channels are
present, align translation/romanization to original lines by timestamp, and
assemble the cooked (v3) structure. -/
def cookLyricsFromRaw (rawData : Option RawLyric) (songId : JsId) : Cooked :=
  let raw := rawData.getD ⟨none, none, none, false, false, false, none, none⟩
  let originalArr := (chLyric raw.lrc).map parseLyric
  let translationArr := (chLyric raw.tlyric).map parseLyric
  let romajiArr := (chLyric raw.romalrc).map parseLyric
  let type :=
    if romajiArr.isSome && translationArr.isSome then "japanese"
    else if romajiArr.isSome && !translationArr.isSome then "cantonese"
    else if translationArr.isSome then "english"
    else "chinese"
  let transMap := createMap translationArr
  let romaMap := createMap romajiArr
  let lines0 : List CookedLine :=
    match originalArr with
    | some l =>
      if l = [] then []
      else
        (l.map fun line =>
          let o := String.mk (trimChars line.text.data)
          if o = "" then none
          else
            some { t := line.timeMs, o := o,
                   tr := truthyStr ((transMap.map (mapGet · line.timeMs)).getD none),
                   ro := truthyStr ((romaMap.map (mapGet · line.timeMs)).getD none)
                 : CookedLine }).reduceOption
    | none => []
  let lines := if lines0 = [] then [⟨0, "暂无歌词", none, none⟩] else lines0
  { v := 3
    songId := jsIdStr songId
    type := type
    sgc := raw.sgc
    sfy := raw.sfy
    qfy := raw.qfy
    verLrc := ((raw.lrc.map (·.version)).getD none).getD 0
    verTlyric := ((raw.tlyric.map (·.version)).getD none).getD 0
    verRomalrc := ((raw.romalrc.map (·.version)).getD none).getD 0
    byLyric := pickLyricUser raw.lyricUser
    byTrans := pickLyricUser raw.transUser
    lines := lines }

end Lyr

/-- Events emitted by the orchestrator / queue models: user-visible toasts,
device commands, outbound catalog requests, UI notifications. -/
inductive Ev where
  | toast (msg : String)
  | audioStop
  | fmFetch
  | playCurrent
  | notifyState
  | notifySong
  | notifyLoading (b : Bool)
  | scheduleChange
  | processQueue
deriving DecidableEq, Repr

/-- Track record as held in the play queue / download requests. -/
structure Song where
  id : JsId
  name : String
  artists : String
  duration : Option Int
deriving DecidableEq, Repr

namespace Player

/-- Persisted session record written by `_saveState` (fields optional because
`_restoreState` re-validates whatever `readJson` returns). -/
structure SavedState where
  lastSongId : Option JsId
  lastPlayDuration : Option ℚ
  playMode : Option Nat
  duration : Option Int
  timestamp : Option Int
deriving DecidableEq, Repr

/-- State of the playback orchestrator (`playerState` plus the internal
management fields of `playerService`). -/
structure PlayerState where
  isPlaying : Bool
  playDuration : ℚ
  currSong : Option Song
  playMode : Nat
  isFmMode : Bool
  playList : List (Option Song)
  fmQueue : List Song
  currentIndex : Int
  isChangingSong : Bool
  isFetchingFm : Bool
  retryCount : Nat
  playTimeoutActive : Bool
deriving DecidableEq, Repr

/-- Initial field values of the `playerService` object literal. -/
def initState : PlayerState :=
  { isPlaying := false, playDuration := 0, currSong := none, playMode := 0,
    isFmMode := false, playList := [], fmQueue := [], currentIndex := -1,
    isChangingSong := false, isFetchingFm := false, retryCount := 0,
    playTimeoutActive := false }

/-- Embedding of `_resetPlayer`: stop the device and clear the core state,
including the retry counter. -/
def resetPlayer (s : PlayerState) : PlayerState × List Ev :=
  ({ s with currSong := none, isPlaying := false, playDuration := 0,
            isChangingSong := false, retryCount := 0 },
   [.audioStop, .notifyState, .notifySong])

/-- Embedding of `_handlePlaybackError`: clear the timeout and the
changing-song guard, bump the retry counter, toast the failure; at the cap of
3 reset to idle, otherwise schedule `change(1)` after a backoff. -/
def handlePlaybackError (s : PlayerState) (msg : String) : PlayerState × List Ev :=
  let s1 := { s with playTimeoutActive := false, isChangingSong := false,
                     retryCount := s.retryCount + 1 }
  if s1.retryCount ≥ 3 then
    let r := resetPlayer s1
    (r.1, .notifyLoading false :: .toast msg :: .toast "多次尝试失败，已停止播放" :: r.2)
  else
    (s1, [.notifyLoading false, .toast msg, .scheduleChange])

/-- Embedding of the `audio.onplay` handler bound in `_bindAudioEvents`. -/
def onPlay (s : PlayerState) : PlayerState × List Ev :=
  ({ s with playTimeoutActive := false, isChangingSong := false, isPlaying := true },
   [.notifyState, .notifyLoading false])

/-- Index search of `_restoreState`:
`playList.findIndex(song => song && song.id === savedState.lastSongId)`. -/
def findSongIdx : List (Option Song) → JsId → Option Nat
  | [], _ => none
  | os :: rest, lid =>
    if (match os with | some song => song.id == lid | none => false) then some 0
    else (findSongIdx rest lid).map (· + 1)

/-- Expiry test of `_restoreState`:
`savedState?.timestamp ? (now - timestamp > 12h) : true`. -/
def stateExpired (saved : SavedState) (now : Int) : Bool :=
  match saved.timestamp with
  | some ts => if ts != 0 then decide (now - ts > 12 * 3600 * 1000) else true
  | none => true

/-- Embedding of `_restoreState`: restore index, mode, current song (with the
saved duration) and position when the saved record has a truthy `lastSongId`
found in the play queue and is not expired; otherwise leave the state as is. -/
def restoreState (s : PlayerState) (saved : Option SavedState) (now : Int) :
    PlayerState × List Ev :=
  match saved with
  | none => (s, [])
  | some st =>
    match st.lastSongId with
    | none => (s, [])
    | some lid =>
      if jsTruthy lid && !(stateExpired st now) then
        match findSongIdx s.playList lid with
        | some idx =>
          match s.playList[idx]? with
          | some (some song) =>
            ({ s with currentIndex := (idx : Int),
                      playMode := st.playMode.getD 0,
                      currSong := some { song with duration := st.duration },
                      playDuration := st.lastPlayDuration.getD 0 },
             [.notifyState, .notifySong, .toast "播放状态已恢复"])
          | _ => (s, [])
        | none => (s, [])
      else (s, [])

/-- Spec-side restore condition, stated from the specification text: the
saved session has a `lastSongId` present in the current queue and
`now - savedTimestamp ≤ 12 hours`. -/
def specSessionRestorable (queue : List (Option Song)) (saved : Option SavedState)
    (now : Int) : Bool :=
  match saved with
  | none => false
  | some st =>
    match st.lastSongId, st.timestamp with
    | some lid, some ts =>
      jsTruthy lid && (findSongIdx queue lid).isSome
        && decide (now - ts ≤ 12 * 3600 * 1000)
    | _, _ => false

/-- Embedding of `_fetchNextFmSongs`: no-op while a fetch is flagged as in
progress; otherwise perform one `getPersonalFmSongs` request (the `fmOracle`
parameter carries its outcome), append any returned songs, and swallow
failures with a toast. -/
def fetchNextFmSongs (s : PlayerState) (fmOracle : Except Unit (List Song)) :
    PlayerState × List Ev :=
  if s.isFetchingFm then (s, [])
  else
    match fmOracle with
    | .ok songs =>
      if songs.length > 0 then
        ({ s with fmQueue := s.fmQueue ++ songs, isFetchingFm := false }, [.fmFetch])
      else
        ({ s with isFetchingFm := false }, [.fmFetch, .toast "没有更多FM推荐了"])
    | .error _ =>
      ({ s with isFetchingFm := false }, [.fmFetch, .toast "获取新歌失败"])

/-- Embedding of `startFmMode`: guard on the fetch flag, enter FM mode, clear
the list queue and the FM queue, stop the device, optionally seed the FM
queue, call `_fetchNextFmSongs` (with the fetch flag still set), then either
play or abort FM mode when the FM queue is still empty. -/
def startFmMode (s : PlayerState) (initialSongId : Option JsId)
    (initialSongInfo : Option Song) (fmOracle : Except Unit (List Song)) :
    PlayerState × List Ev :=
  if s.isFetchingFm then (s, [])
  else
    let s1 := { s with isFmMode := true, isFetchingFm := true,
                       playList := [], fmQueue := [] }
    let s2 :=
      match initialSongId, initialSongInfo with
      | some i, some info =>
        if jsTruthy i then { s1 with fmQueue := s1.fmQueue ++ [info] } else s1
      | _, _ => s1
    let f := fetchNextFmSongs s2 fmOracle
    let step :=
      if f.1.fmQueue.length > 0 then (f.1, [Ev.playCurrent])
      else ({ f.1 with isFmMode := false }, [Ev.toast "无法获取FM歌曲，请检查网络"])
    ({ step.1 with isFetchingFm := false },
     [Ev.audioStop, Ev.toast "正在开启私人FM..."] ++ f.2 ++ step.2 ++ [Ev.notifyState])

end Player

namespace Dl

/-- Download task record created by `addTask`. -/
structure DTask where
  id : JsId
  song : Song
  status : String
deriving DecidableEq, Repr

/-- State of the download queue manager. -/
structure DlState where
  queue : List DTask
  isProcessing : Bool
  currentTask : Option DTask
deriving DecidableEq, Repr

/-- Ids of all live tasks: the active task (if any) followed by the queue. -/
def liveIds (s : DlState) : List JsId :=
  (match s.currentTask with | some t => [t.id] | none => []) ++ s.queue.map (·.id)

/-- Embedding of `addTask` from `src/services/download.js`: reject when the
active task or a queued task has strictly (`===`) the same id, otherwise
append a pending task and kick the worker loop. -/
def addTask (s : DlState) (song : Song) : DlState × List Ev :=
  if (match s.currentTask with | some t => t.id == song.id | none => false)
      || s.queue.any (fun t => t.id == song.id) then
    (s, [.toast "已在下载队列中"])
  else
    ({ s with queue := s.queue ++ [{ id := song.id, song := song, status := "pending" }] },
     [.toast "已加入下载队列", .processQueue])

/-- Playback info returned by `api.getSongPlaybackInfo`. -/
structure PlaybackInfo where
  url : String
  duration : Int
deriving DecidableEq, Repr

/-- Canonical per-id audio path `DIR_MUSIC + id + ".mp3"`. -/
def songFilePath (id : JsId) : String := "internal://files/music/" ++ jsIdStr id ++ ".mp3"

/-- Canonical per-id lyric path `DIR_LYRICS + id + ".json"`. -/
def lyricFilePath (id : JsId) : String := "internal://files/lyrics/" ++ jsIdStr id ++ ".json"

/-- Enriched record produced by a successful `_downloadSong`. -/
structure DownloadedInfo where
  song : Song
  localUri : String
  localLyricUri : Option String
  duration : Int
deriving DecidableEq, Repr

/-- Embedding of `_downloadSong`: fetch playback info and lyric data in
parallel (their outcomes are the `playback` / `lyricDataPresent` parameters);
fail if no URL; then settle the audio download and the lyric write together
(`audioDl` / `lyricWriteOk`).  A rejected audio download fails the task after
both operations settled; a failed lyric write only degrades the result.  The
second component is the persistent store (list of file paths) after the call,
given the store before it. -/
def downloadSong (store : List String) (song : Song)
    (playback : Except String PlaybackInfo) (lyricDataPresent : Bool)
    (audioDl : Except String String) (lyricWriteOk : Bool) :
    Except String DownloadedInfo × List String :=
  match playback with
  | .error e => (.error e, store)
  | .ok pb =>
    if pb.url = "" then (.error "无法获取歌曲下载链接", store)
    else
      let store1 := if lyricWriteOk then store ++ [lyricFilePath song.id] else store
      match audioDl with
      | .error e => (.error e, store1)
      | .ok uri =>
        (.ok { song := song, localUri := uri,
               localLyricUri :=
                 if lyricDataPresent && lyricWriteOk then some (lyricFilePath song.id)
                 else none,
               duration := pb.duration },
         store1 ++ [songFilePath song.id])

end Dl

namespace Cover

/-- In-flight dedup state of the cover resolver: `_coverInflight` maps a
`"id_size"` key to the pending job (jobs are numbered), together with a
counter for the next job identity. -/
structure CoverState where
  inflight : List (String × Nat)
  nextJob : Nat
deriving DecidableEq, Repr

/-- Key construction `${id}_${size}` of `getSongCoverUrl`. -/
def coverKey (id : String) (size : Nat) : String := id ++ "_" ++ toString size

/-- Synchronous admission section of `getSongCoverUrl`, which runs without a
suspension point: return the in-flight job for the key if one exists,
otherwise create a new job and record it under the key.  Returns the job the
caller awaits and whether a new resolution was started. -/
def acquireCover (s : CoverState) (key : String) : CoverState × Nat × Bool :=
  match s.inflight.lookup key with
  | some j => (s, j, false)
  | none =>
    ({ inflight := (key, s.nextJob) :: s.inflight, nextJob := s.nextJob + 1 },
     s.nextJob, true)

/-- Environment of one resolution job: the cover-index hit, the short-TTL
picUrl cache entry, the clock, and the outcomes of the (at most one) detail
fetch, temp download, and move/copy placement. -/
structure CoverEnv where
  indexHasKey : Bool
  picCache : Option (String × Int)
  now : Int
  detailFetch : Except String String
  dlOutcome : Except Unit String
  moveOk : Bool
deriving DecidableEq, Repr

/-- TTL of the in-memory picUrl cache (`_PIC_URL_TTL_MS`). -/
def picUrlTtlMs : Int := 10 * 60 * 1000

/-- The picUrl resolution step of the job: serve from the TTL cache when
fresh, otherwise perform one `song/detail` fetch; an empty picUrl is an
error (`picUrl missing`).  Second component counts detail fetches. -/
def fetchPicUrl (env : CoverEnv) : Except String String × ℕ :=
  let fetched : Except String String × ℕ :=
    match env.detailFetch with
    | .error e => (.error e, 1)
    | .ok picUrl => if picUrl = "" then (.error "picUrl missing", 1) else (.ok picUrl, 1)
  match env.picCache with
  | some (u, ts) =>
    if u != "" && decide (env.now - ts < picUrlTtlMs) then (.ok u, 0) else fetched
  | none => fetched

/-- Body of the resolution job of `getSongCoverUrl`: index hit short-circuits
to the local path; otherwise resolve the picUrl, then try download and
placement, falling back to the remote URL on either failure.  Returns the
result and the counts of detail fetches and downloads performed. -/
def runCoverJob (env : CoverEnv) (localJpg : String) (size : Nat) :
    Except String String × ℕ × ℕ :=
  if env.indexHasKey then (.ok localJpg, 0, 0)
  else
    match fetchPicUrl env with
    | (.error e, n) => (.error e, n, 0)
    | (.ok picUrl, n) =>
      let remoteUrl := picUrl ++ "?param=" ++ toString size ++ "y" ++ toString size
      match env.dlOutcome with
      | .error _ => (.ok remoteUrl, n, 1)
      | .ok _ =>
        if env.moveOk then (.ok localJpg, n, 1) else (.ok remoteUrl, n, 1)

end Cover

end OMusic

namespace OMusic

/-! ## Helper lemmas -/

/-- Every entry emitted for a single line carries the trimmed, non-empty
text of that line. -/
theorem parseLine_text_ne (raw : List Char) : ∀ e ∈ Lyr.parseLine raw, e.text ≠ "" := by
  intro e he
  unfold Lyr.parseLine at he
  split at he
  · simp at he
  · split at he
    · simp at he
    · split at he
      · simp at he
      · rename_i htext
        simp only [List.mem_map] at he
        obtain ⟨t, _, rfl⟩ := he
        intro h
        apply htext
        simpa using congrArg String.data h

/-- A successful index search returns a position holding a song with the
searched id. -/
theorem findSongIdx_some {queue : List (Option Song)} {lid : JsId} {idx : ℕ}
    (h : Player.findSongIdx queue lid = some idx) :
    ∃ song, queue[idx]? = some (some song) ∧ song.id = lid := by
  induction queue generalizing idx with
  | nil => simp [Player.findSongIdx] at h
  | cons os rest ih =>
    simp only [Player.findSongIdx] at h
    split at h
    · rename_i hos
      cases h
      match os, hos with
      | some song, hos => exact ⟨song, by simp, by simpa using hos⟩
    · simp only [Option.map_eq_some'] at h
      obtain ⟨j, hj, rfl⟩ := h
      obtain ⟨song, hget, hid⟩ := ih hj
      exact ⟨song, by simpa using hget, hid⟩

/-- The audio path and the lyric path of an id are distinct files (their
lengths already differ). -/
theorem songFilePath_ne_lyricFilePath (id : JsId) :
    Dl.songFilePath id ≠ Dl.lyricFilePath id := by
  intro h
  have hlen := congrArg String.length h
  have h1 : ("internal://files/music/" : String).length = 23 := rfl
  have h2 : ("internal://files/lyrics/" : String).length = 24 := rfl
  have h3 : (".mp3" : String).length = 4 := rfl
  have h4 : (".json" : String).length = 5 := rfl
  simp [Dl.songFilePath, Dl.lyricFilePath, String.length_append, h1, h2, h3, h4] at hlen
  omega

/-- The picUrl step performs at most one detail fetch. -/
theorem fetchPicUrl_le (env : Cover.CoverEnv) : (Cover.fetchPicUrl env).2 ≤ 1 := by
  unfold Cover.fetchPicUrl
  rcases hpc : env.picCache with _ | ⟨v, ts⟩ <;> rcases hdf : env.detailFetch with e | u <;>
    simp only [hpc, hdf] <;> (repeat' split) <;> simp

/-- With no cached picUrl the step performs exactly one detail fetch. -/
theorem fetchPicUrl_of_no_cache (env : Cover.CoverEnv) (h : env.picCache = none) :
    (Cover.fetchPicUrl env).2 = 1 := by
  unfold Cover.fetchPicUrl
  rcases hdf : env.detailFetch with e | u
  · simp [h, hdf]
  · simp only [h, hdf]
    split <;> simp

/-! ## Claim theorems -/

/-- C1 (counterexample): the claim states that after a download task fails at
the audio-placement step, no audio, lyric, or cover file for the id remains
on the persistent store.  On the code this is false: starting from an empty
store, a task for track id 5 whose lyric write fulfilled and whose audio
download rejected ends in failure while the lyric file
`internal://files/lyrics/5.json` remains on the store — `_downloadSong`
performs no cleanup of already-written files. -/
theorem downloadSong_leaves_lyric_file :
    (Dl.downloadSong [] ⟨.num 5, "n", "a", none⟩ (.ok ⟨"http://u", 100⟩) true
        (.error "下载过程中失败, code: 1") true).1
      = .error "下载过程中失败, code: 1"
  ∧ Dl.lyricFilePath (.num 5) ∈
      (Dl.downloadSong [] ⟨.num 5, "n", "a", none⟩ (.ok ⟨"http://u", 100⟩) true
        (.error "下载过程中失败, code: 1") true).2 := by
  decide

/-- C1 (amended): when the audio download of a task is rejected, the task
fails with that error and no cleanup is performed: the audio file is absent
only because it was never placed, while a lyric file whose concurrent write
fulfilled remains on the store. -/
theorem downloadSong_no_cleanup_on_failure (store : List String) (song : Song)
    (pb : Dl.PlaybackInfo) (ld : Bool) (e : String) (lyricOk : Bool)
    (hurl : pb.url ≠ "") :
    (Dl.downloadSong store song (.ok pb) ld (.error e) lyricOk).1 = .error e
  ∧ (Dl.downloadSong store song (.ok pb) ld (.error e) lyricOk).2
      = store ++ (if lyricOk then [Dl.lyricFilePath song.id] else [])
  ∧ (lyricOk = true →
      Dl.lyricFilePath song.id ∈
        (Dl.downloadSong store song (.ok pb) ld (.error e) lyricOk).2)
  ∧ (Dl.songFilePath song.id ∉ store →
      Dl.songFilePath song.id ∉
        (Dl.downloadSong store song (.ok pb) ld (.error e) lyricOk).2) := by
  cases lyricOk
  · simp [Dl.downloadSong, hurl]
  · simp [Dl.downloadSong, hurl]
    exact fun hs => ⟨hs, songFilePath_ne_lyricFilePath song.id⟩

/-- C1 (witness): the amended statement evaluated at a concrete failing
task for track id 5. -/
theorem downloadSong_no_cleanup_on_failure_witness :
    (Dl.downloadSong [] ⟨.num 5, "n", "a", none⟩ (.ok ⟨"http://u", 100⟩) true
        (.error "boom") true).1 = .error "boom"
  ∧ Dl.lyricFilePath (.num 5) ∈
      (Dl.downloadSong [] ⟨.num 5, "n", "a", none⟩ (.ok ⟨"http://u", 100⟩) true
        (.error "boom") true).2 := by
  have h := downloadSong_no_cleanup_on_failure [] ⟨.num 5, "n", "a", none⟩
    ⟨"http://u", 100⟩ true "boom" true (by decide)
  exact ⟨h.1, h.2.2.1 rfl⟩

/-- C2 (code bug): `startFmMode` never performs the recommended-tracks fetch
the claim (and the spec) describe.  It sets `_isFetchingFm` before awaiting
`_fetchNextFmSongs`, whose first line returns immediately when that very flag
is set, so for every starting state with no fetch in progress and every
catalog outcome — even a non-empty batch — a seedless `startFmMode` issues no
`personal_fm` request, leaves the FM queue empty, aborts FM mode with the
failure toast, and reverts `isFmMode` to `false`. -/
theorem startFmMode_skips_fetch (s : Player.PlayerState)
    (oracle : Except Unit (List Song)) (h : s.isFetchingFm = false) :
    Ev.fmFetch ∉ (Player.startFmMode s none none oracle).2
  ∧ (Player.startFmMode s none none oracle).1.isFmMode = false
  ∧ (Player.startFmMode s none none oracle).1.playList = []
  ∧ Ev.audioStop ∈ (Player.startFmMode s none none oracle).2
  ∧ Ev.toast "无法获取FM歌曲，请检查网络" ∈ (Player.startFmMode s none none oracle).2 := by
  simp [Player.startFmMode, Player.fetchNextFmSongs, h]

/-- C2 (witness): with the catalog ready to deliver a non-empty batch, the
seedless FM start still fetches nothing and ends with FM mode off. -/
theorem startFmMode_skips_fetch_witness :
    Ev.fmFetch ∉ (Player.startFmMode Player.initState none none
        (.ok [⟨.num 1, "n", "a", none⟩])).2
  ∧ (Player.startFmMode Player.initState none none
        (.ok [⟨.num 1, "n", "a", none⟩])).1.isFmMode = false := by
  have h := startFmMode_skips_fetch Player.initState (.ok [⟨.num 1, "n", "a", none⟩]) rfl
  exact ⟨h.1, h.2.1⟩

/-- C3: three consecutive invocations of the shared playback error handler,
starting from a retry counter of 0 with no intervening reset, leave the
orchestrator idle: no current song, not playing, and the retry counter back
at 0 (the third failure reaches the cap of 3 and triggers `_resetPlayer`). -/
theorem three_failures_reset_to_idle (s : Player.PlayerState) (m1 m2 m3 : String)
    (h : s.retryCount = 0) :
    ((Player.handlePlaybackError
        ((Player.handlePlaybackError
          ((Player.handlePlaybackError s m1).1) m2).1) m3).1).currSong = none
  ∧ ((Player.handlePlaybackError
        ((Player.handlePlaybackError
          ((Player.handlePlaybackError s m1).1) m2).1) m3).1).isPlaying = false
  ∧ ((Player.handlePlaybackError
        ((Player.handlePlaybackError
          ((Player.handlePlaybackError s m1).1) m2).1) m3).1).retryCount = 0 := by
  simp [Player.handlePlaybackError, Player.resetPlayer, h]

/-- C3 (witness): the triple failure evaluated from the initial state. -/
theorem three_failures_reset_to_idle_witness :
    ((Player.handlePlaybackError
        ((Player.handlePlaybackError
          ((Player.handlePlaybackError Player.initState "x").1) "y").1) "z").1).currSong
      = none := by
  exact (three_failures_reset_to_idle Player.initState "x" "y" "z" rfl).1

/-- C4: on initialization, a saved session is restored — observable by the
notifications the restore emits — if and only if the saved record carries a
truthy `lastSongId` present in the loaded play queue and its timestamp is at
most 12 hours old (stated for any realistic clock, `now > 12h`); when no
restore happens the state is untouched, and when it happens the current
index, play mode, current song (with the saved duration) and play position
are set from the saved record. -/
theorem restoreState_iff_spec (s : Player.PlayerState)
    (saved : Option Player.SavedState) (now : Int)
    (hnow : 12 * 3600 * 1000 < now) :
    ((Player.restoreState s saved now).2 ≠ [] ↔
        Player.specSessionRestorable s.playList saved now = true)
  ∧ (Player.specSessionRestorable s.playList saved now = false →
        (Player.restoreState s saved now).1 = s)
  ∧ (∀ st lid idx song,
        saved = some st → st.lastSongId = some lid →
        Player.findSongIdx s.playList lid = some idx →
        s.playList[idx]? = some (some song) →
        Player.specSessionRestorable s.playList saved now = true →
        (Player.restoreState s saved now).1.currentIndex = (idx : Int)
        ∧ (Player.restoreState s saved now).1.playMode = st.playMode.getD 0
        ∧ (Player.restoreState s saved now).1.currSong
            = some { song with duration := st.duration }
        ∧ (Player.restoreState s saved now).1.playDuration
            = st.lastPlayDuration.getD 0) := by
  rcases saved with _ | st
  · simp [Player.restoreState, Player.specSessionRestorable]
  rcases hsid : st.lastSongId with _ | lid
  · simp [Player.restoreState, Player.specSessionRestorable, hsid]
  rcases hts : st.timestamp with _ | ts
  · constructor
    · simp [Player.restoreState, Player.specSessionRestorable,
        Player.stateExpired, hsid, hts]
    · constructor
      · intro _
        simp [Player.restoreState, Player.stateExpired, hsid, hts]
      · intro st2 lid2 idx song hst _ _ _ hspec
        cases hst
        simp [Player.specSessionRestorable, hsid, hts] at hspec
  · by_cases hfresh : now - ts ≤ 12 * 3600 * 1000
    · have hts0 : ts ≠ 0 := by omega
      have hfresh2 : now ≤ 43200000 + ts := by omega
      have hexp : Player.stateExpired st now = false := by
        simp [Player.stateExpired, hts, hts0]
        omega
      by_cases htr : jsTruthy lid = true
      · rcases hfind : Player.findSongIdx s.playList lid with _ | idx
        · constructor
          · simp [Player.restoreState, Player.specSessionRestorable, hsid, hts,
              hexp, htr, hfind, hfresh]
          · constructor
            · intro _
              simp [Player.restoreState, hsid, hexp, htr, hfind]
            · intro st2 lid2 idx song hst hlid hfind2 _ _
              cases hst
              rw [hsid] at hlid
              cases hlid
              rw [hfind] at hfind2
              cases hfind2
        · obtain ⟨song, hget, hid⟩ := findSongIdx_some hfind
          constructor
          · simp [Player.restoreState, Player.specSessionRestorable, hsid, hts,
              hexp, htr, hfind, hfresh2, hget]
          · constructor
            · intro hspec
              simp [Player.specSessionRestorable, hsid, hts, htr, hfind] at hspec
              omega
            · intro st2 lid2 idx2 song2 hst hlid hfind2 hget2 _
              cases hst
              rw [hsid] at hlid
              cases hlid
              rw [hfind] at hfind2
              cases hfind2
              rw [hget] at hget2
              cases hget2
              simp [Player.restoreState, hsid, hexp, htr, hfind, hget]
      · simp only [Bool.not_eq_true] at htr
        constructor
        · simp [Player.restoreState, Player.specSessionRestorable, hsid, hts, hexp, htr]
        · constructor
          · intro _
            simp [Player.restoreState, hsid, htr]
          · intro st2 lid2 idx song hst hlid _ _ hspec
            cases hst
            rw [hsid] at hlid
            cases hlid
            simp [Player.specSessionRestorable, hsid, hts, htr] at hspec
    · have hexp : Player.stateExpired st now = true := by
        rcases eq_or_ne ts 0 with rfl | hts0
        · simp [Player.stateExpired, hts]
        · simp [Player.stateExpired, hts, hts0]
          omega
      constructor
      · simp [Player.restoreState, Player.specSessionRestorable, hsid, hts, hexp, hfresh]
        exact fun _ _ => by omega
      · constructor
        · intro _
          simp [Player.restoreState, hsid, hexp]
        · intro st2 lid2 idx song hst hlid _ _ hspec
          cases hst
          rw [hsid] at hlid
          cases hlid
          simp [Player.specSessionRestorable, hsid, hts] at hspec
          exact absurd hspec.2 (by omega)

/-- C4 (witness): an 11-hour-old record whose `lastSongId` is in the queue
restores `currSong` and `playMode`; a 13-hour-old record leaves the state
untouched (`now = 360000000`, timestamps 11 h and 13 h earlier). -/
theorem restoreState_iff_spec_witness :
    ((Player.restoreState { Player.initState with playList := [some ⟨.num 1, "n", "a", some 200⟩] }
        (some ⟨some (.num 1), some 30, some 2, some 200, some 320400000⟩) 360000000).2 ≠ [])
  ∧ (Player.restoreState { Player.initState with playList := [some ⟨.num 1, "n", "a", some 200⟩] }
        (some ⟨some (.num 1), some 30, some 2, some 200, some 320400000⟩) 360000000).1.playMode
      = 2
  ∧ (Player.restoreState { Player.initState with playList := [some ⟨.num 1, "n", "a", some 200⟩] }
        (some ⟨some (.num 1), some 30, some 2, some 200, some 320400000⟩) 360000000).1.currSong
      = some ⟨.num 1, "n", "a", some 200⟩
  ∧ (Player.restoreState { Player.initState with playList := [some ⟨.num 1, "n", "a", some 200⟩] }
        (some ⟨some (.num 1), some 30, some 2, some 200, some 313200000⟩) 360000000).1
      = { Player.initState with playList := [some ⟨.num 1, "n", "a", some 200⟩] } := by
  have h11 := restoreState_iff_spec
    { Player.initState with playList := [some ⟨.num 1, "n", "a", some 200⟩] }
    (some ⟨some (.num 1), some 30, some 2, some 200, some 320400000⟩) 360000000 (by norm_num)
  have h13 := restoreState_iff_spec
    { Player.initState with playList := [some ⟨.num 1, "n", "a", some 200⟩] }
    (some ⟨some (.num 1), some 30, some 2, some 200, some 313200000⟩) 360000000 (by norm_num)
  have hf := h11.2.2 ⟨some (.num 1), some 30, some 2, some 200, some 320400000⟩ (.num 1) 0
    ⟨.num 1, "n", "a", some 200⟩ rfl rfl (by decide) (by decide) (by decide)
  exact ⟨h11.1.mpr (by decide), hf.2.1, hf.2.2.1, h13.2.1 (by decide)⟩

/-- C5 (counterexample): the claim states that ids compare string-wise, a
numeric id and its string form being the same identity.  `addTask` compares
with `===`: with the task for string id `"123"` queued, adding a song with
numeric id `123` — the same identity string-wise — is not rejected: a second
task is created and the queue grows to length 2. -/
theorem addTask_admits_string_vs_number_id :
    jsIdStr (JsId.num 123) = jsIdStr (JsId.str "123")
  ∧ (Dl.addTask
      { queue := [⟨.str "123", ⟨.str "123", "n", "a", none⟩, "pending"⟩],
        isProcessing := true, currentTask := none }
      ⟨.num 123, "n", "a", none⟩).1.queue.length = 2
  ∧ (Dl.addTask
      { queue := [⟨.str "123", ⟨.str "123", "n", "a", none⟩, "pending"⟩],
        isProcessing := true, currentTask := none }
      ⟨.num 123, "n", "a", none⟩).2 = [.toast "已加入下载队列", .processQueue] := by
  decide

/-- C5 (amended): admission deduplicates on strict (`===`) id equality, not
string-wise equality: a request whose id strictly equals the active task's id
or a queued task's id leaves the state unchanged, strict-id uniqueness of
live tasks is preserved, and a request with a strictly fresh id appends
exactly one task. -/
theorem addTask_strict_id_admission (s : Dl.DlState) (song : Song) :
    (song.id ∈ Dl.liveIds s → (Dl.addTask s song).1 = s)
  ∧ ((Dl.liveIds s).Nodup → (Dl.liveIds (Dl.addTask s song).1).Nodup)
  ∧ (song.id ∉ Dl.liveIds s →
      (Dl.addTask s song).1.queue.length = s.queue.length + 1) := by
  have hcond : ((match s.currentTask with | some t => t.id == song.id | none => false)
      || s.queue.any (fun t => t.id == song.id)) = true ↔ song.id ∈ Dl.liveIds s := by
    rcases hct : s.currentTask with _ | t
    · simp [Dl.liveIds, hct, List.any_eq_true]
    · simp [Dl.liveIds, hct, List.any_eq_true]
      exact or_congr eq_comm Iff.rfl
  by_cases hmem : song.id ∈ Dl.liveIds s
  · have hc := hcond.mpr hmem
    exact ⟨fun _ => by simp [Dl.addTask, hc],
           fun hnd => by simpa [Dl.addTask, hc] using hnd,
           fun hout => absurd hmem hout⟩
  · have hc : ((match s.currentTask with | some t => t.id == song.id | none => false)
        || s.queue.any (fun t => t.id == song.id)) = false := by
      cases h2 : ((match s.currentTask with | some t => t.id == song.id | none => false)
        || s.queue.any (fun t => t.id == song.id)) with
      | false => rfl
      | true => exact absurd (hcond.mp h2) hmem
    refine ⟨fun hin => absurd hin hmem, fun hnd => ?_, fun _ => by simp [Dl.addTask, hc]⟩
    have heq : Dl.liveIds (Dl.addTask s song).1 = Dl.liveIds s ++ [song.id] := by
      simp only [Dl.addTask, hc]
      rcases hct : s.currentTask with _ | t <;> simp [Dl.liveIds, hct]
    rw [heq]
    simp only [List.nodup_append, List.nodup_cons, List.not_mem_nil, not_false_eq_true,
      List.nodup_nil, and_true, List.disjoint_singleton]
    exact ⟨hnd, trivial, fun h => hmem h⟩

/-- C5 (witness): adding a song whose numeric id strictly equals a queued
task's id leaves the queue unchanged. -/
theorem addTask_strict_id_admission_witness :
    (Dl.addTask
      { queue := [⟨.num 7, ⟨.num 7, "n", "a", none⟩, "pending"⟩],
        isProcessing := true, currentTask := none }
      ⟨.num 7, "m", "b", none⟩).1
    = { queue := [⟨.num 7, ⟨.num 7, "n", "a", none⟩, "pending"⟩],
        isProcessing := true, currentTask := none } := by
  exact (addTask_strict_id_admission
    { queue := [⟨.num 7, ⟨.num 7, "n", "a", none⟩, "pending"⟩],
      isProcessing := true, currentTask := none }
    ⟨.num 7, "m", "b", none⟩).1 (by decide)

/-- C6: for every input string, `parseLyric` returns a list sorted
non-decreasing by time containing no entry with empty text; it always
returns a non-empty list (it never fails), and when no time-tagged line with
non-empty text survives it returns exactly the single placeholder entry at
time 0. -/
theorem parseLyric_sorted_nonempty_total (lrc : String) :
    List.Sorted Lyr.leT (Lyr.parseLyric lrc)
  ∧ (∀ e ∈ Lyr.parseLyric lrc, e.text ≠ "")
  ∧ Lyr.parseLyric lrc ≠ []
  ∧ (Lyr.rawEntries lrc = [] → Lyr.parseLyric lrc = [⟨0, "暂无歌词"⟩]) := by
  refine ⟨?_, ?_, ?_, ?_⟩
  · unfold Lyr.parseLyric
    split
    · exact List.sorted_singleton _
    · exact List.sorted_insertionSort Lyr.leT (Lyr.rawEntries lrc)
  · intro e he
    unfold Lyr.parseLyric at he
    split at he
    · simp at he
      subst he
      decide
    · have : e ∈ Lyr.rawEntries lrc := (List.mem_insertionSort Lyr.leT).mp he
      unfold Lyr.rawEntries at this
      simp only [List.mem_flatten, List.mem_map] at this
      obtain ⟨l, ⟨seg, _, rfl⟩, hel⟩ := this
      exact parseLine_text_ne seg e hel
  · unfold Lyr.parseLyric
    split
    · simp
    · rename_i h
      simpa [List.isEmpty_iff] using h
  · intro h
    simp [Lyr.parseLyric, h, List.insertionSort]

/-- C6 (witness): the empty input has no surviving entries, so the result is
the single placeholder entry at time 0 (and it is sorted). -/
theorem parseLyric_sorted_nonempty_total_witness :
    List.Sorted Lyr.leT (Lyr.parseLyric "")
  ∧ Lyr.parseLyric "" = [⟨0, "暂无歌词"⟩] :=
  ⟨(parseLyric_sorted_nonempty_total "").1,
   (parseLyric_sorted_nonempty_total "").2.2.2 (by decide)⟩

/-- C7: a time tag accepts both a dot and a colon before the fractional part;
a 1-digit fraction counts tenths of a second (`d * 100` ms), a 2-digit
fraction hundredths (`dd * 10` ms), a 3-digit fraction milliseconds; and on
`"[00:01.50]a\n[00:01:50]a"` both tag syntaxes yield two entries at exactly
1.5 seconds. -/
theorem parseLyric_fraction_semantics :
    (∀ sep ∈ ['.', ':'], ∀ (a b c : Fin 10),
      Lyr.matchTag ('[' :: '0' :: '0' :: ':' :: '0' :: '1' :: sep ::
          [Lyr.digitChar a, ']'])
        = some (1000 + a.val * 100, [])
      ∧ Lyr.matchTag ('[' :: '0' :: '0' :: ':' :: '0' :: '1' :: sep ::
          [Lyr.digitChar a, Lyr.digitChar b, ']'])
        = some (1000 + (10 * a.val + b.val) * 10, [])
      ∧ Lyr.matchTag ('[' :: '0' :: '0' :: ':' :: '0' :: '1' :: sep ::
          [Lyr.digitChar a, Lyr.digitChar b, Lyr.digitChar c, ']'])
        = some (1000 + (100 * a.val + 10 * b.val + c.val), []))
  ∧ Lyr.parseLyric "[00:01.50]a\n[00:01:50]a" = [⟨1500, "a"⟩, ⟨1500, "a"⟩]
  ∧ (∀ e ∈ Lyr.parseLyric "[00:01.50]a\n[00:01:50]a", e.timeSec = 3 / 2) := by
  refine ⟨by decide, by decide, ?_⟩
  intro e he
  have h2 : Lyr.parseLyric "[00:01.50]a\n[00:01:50]a" = [⟨1500, "a"⟩, ⟨1500, "a"⟩] := by
    decide
  rw [h2] at he
  simp only [List.mem_cons, List.not_mem_nil, or_false] at he
  rcases he with he | he <;> subst he <;> norm_num [Lyr.LyricEntry.timeSec]

/-- C7 (witness): the 1-digit-fraction case at digit 5 with the dot
separator — `[00:01.5]` parses to 1500 ms. -/
theorem parseLyric_fraction_semantics_witness :
    Lyr.matchTag ('[' :: '0' :: '0' :: ':' :: '0' :: '1' :: '.' ::
        [Lyr.digitChar 5, ']'])
      = some (1000 + (5 : Fin 10).val * 100, []) :=
  (parseLyric_fraction_semantics.1 '.' (by decide) 5 0 0).1

/-- C8: `cookLyricsFromRaw` classifies the lyric type from the channels
present: only an original channel gives `"chinese"`, original plus
translation `"english"`, original plus romanization `"cantonese"`, and all
three `"japanese"`. -/
theorem cookLyricsFromRaw_classification (r : Lyr.RawLyric) (sid : JsId) :
    (Lyr.chPresent r.lrc = true → Lyr.chPresent r.tlyric = false →
      Lyr.chPresent r.romalrc = false →
      (Lyr.cookLyricsFromRaw (some r) sid).type = "chinese")
  ∧ (Lyr.chPresent r.lrc = true → Lyr.chPresent r.tlyric = true →
      Lyr.chPresent r.romalrc = false →
      (Lyr.cookLyricsFromRaw (some r) sid).type = "english")
  ∧ (Lyr.chPresent r.lrc = true → Lyr.chPresent r.tlyric = false →
      Lyr.chPresent r.romalrc = true →
      (Lyr.cookLyricsFromRaw (some r) sid).type = "cantonese")
  ∧ (Lyr.chPresent r.lrc = true → Lyr.chPresent r.tlyric = true →
      Lyr.chPresent r.romalrc = true →
      (Lyr.cookLyricsFromRaw (some r) sid).type = "japanese") := by
  refine ⟨?_, ?_, ?_, ?_⟩ <;>
    · intro _ h2 h3
      simp only [Lyr.chPresent] at h2 h3
      simp [Lyr.cookLyricsFromRaw, Option.isSome_map, h2, h3]

/-- C8 (witness): the four channel combinations on concrete payloads. -/
theorem cookLyricsFromRaw_classification_witness :
    (Lyr.cookLyricsFromRaw
      (some ⟨some ⟨some "[00:01]x", none⟩, none, none, false, false, false, none, none⟩)
      (.num 9)).type = "chinese"
  ∧ (Lyr.cookLyricsFromRaw
      (some ⟨some ⟨some "[00:01]x", none⟩, some ⟨some "[00:01]t", none⟩, none,
        false, false, false, none, none⟩) (.num 9)).type = "english"
  ∧ (Lyr.cookLyricsFromRaw
      (some ⟨some ⟨some "[00:01]x", none⟩, none, some ⟨some "[00:01]r", none⟩,
        false, false, false, none, none⟩) (.num 9)).type = "cantonese"
  ∧ (Lyr.cookLyricsFromRaw
      (some ⟨some ⟨some "[00:01]x", none⟩, some ⟨some "[00:01]t", none⟩,
        some ⟨some "[00:01]r", none⟩, false, false, false, none, none⟩)
      (.num 9)).type = "japanese" :=
  ⟨(cookLyricsFromRaw_classification _ (.num 9)).1 (by decide) (by decide) (by decide),
   (cookLyricsFromRaw_classification _ (.num 9)).2.1 (by decide) (by decide) (by decide),
   (cookLyricsFromRaw_classification _ (.num 9)).2.2.1 (by decide) (by decide) (by decide),
   (cookLyricsFromRaw_classification _ (.num 9)).2.2.2 (by decide) (by decide) (by decide)⟩

/-- C9: a second `getSongCoverUrl` call for the same key arriving while the
first is in flight joins the first call's job — it starts no new resolution
and both callers await the same job, hence the same result or failure — and
any single resolution job performs at most one catalog detail fetch and at
most one download, with exactly one detail fetch on a cold miss (no cover
index hit and no cached picUrl). -/
theorem coverResolution_dedup :
    (∀ (s : Cover.CoverState) (key : String),
      (Cover.acquireCover (Cover.acquireCover s key).1 key).2.1
          = (Cover.acquireCover s key).2.1
      ∧ (Cover.acquireCover (Cover.acquireCover s key).1 key).2.2 = false
      ∧ (Cover.acquireCover (Cover.acquireCover s key).1 key).1
          = (Cover.acquireCover s key).1)
  ∧ (∀ (env : Cover.CoverEnv) (localJpg : String) (size : Nat),
      (Cover.runCoverJob env localJpg size).2.1 ≤ 1
      ∧ (Cover.runCoverJob env localJpg size).2.2 ≤ 1
      ∧ (env.indexHasKey = false → env.picCache = none →
          (Cover.runCoverJob env localJpg size).2.1 = 1)) := by
  constructor
  · intro s key
    rcases hl : s.inflight.lookup key with _ | j
    · simp [Cover.acquireCover, hl, List.lookup]
    · simp [Cover.acquireCover, hl]
  · intro env localJpg size
    have hle := fetchPicUrl_le env
    refine ⟨?_, ?_, ?_⟩
    · unfold Cover.runCoverJob
      split
      · simp
      · rcases hp : Cover.fetchPicUrl env with ⟨r, n⟩
        rw [hp] at hle
        rcases r with e | u
        · simpa [hp] using hle
        · rcases hd : env.dlOutcome with x | t <;> cases hmv : env.moveOk <;>
            simpa [hp, hd, hmv] using hle
    · unfold Cover.runCoverJob
      split
      · simp
      · rcases hp : Cover.fetchPicUrl env with ⟨r, n⟩
        rcases r with e | u
        · simp [hp]
        · rcases hd : env.dlOutcome with x | t <;> cases hmv : env.moveOk <;>
            simp [hp, hd, hmv]
    · intro hidx hcache
      have h1 := fetchPicUrl_of_no_cache env hcache
      unfold Cover.runCoverJob
      rw [if_neg (by simp [hidx])]
      rcases hp : Cover.fetchPicUrl env with ⟨r, n⟩
      rw [hp] at h1
      rcases r with e | u
      · simpa [hp] using h1
      · rcases hd : env.dlOutcome with x | t <;> cases hmv : env.moveOk <;>
          simpa [hp, hd, hmv] using h1

/-- C9 (witness): concrete instances — the joining second call starts no new
job, and a cold-miss job performs exactly one detail fetch. -/
theorem coverResolution_dedup_witness :
    (Cover.acquireCover (Cover.acquireCover ⟨[], 0⟩ (Cover.coverKey "42" 200)).1
        (Cover.coverKey "42" 200)).2.2 = false
  ∧ (Cover.runCoverJob ⟨false, none, 0, .ok "http://pic", .ok "temp://x", true⟩
        "internal://files/cover/42_200px.jpg" 200).2.1 = 1 :=
  ⟨(coverResolution_dedup.1 ⟨[], 0⟩ (Cover.coverKey "42" 200)).2.1,
   (coverResolution_dedup.2 ⟨false, none, 0, .ok "http://pic", .ok "temp://x", true⟩
      "internal://files/cover/42_200px.jpg" 200).2.2 rfl rfl⟩

/-- C10: a successful playback start (the device `onplay` event) leaves the
retry counter unchanged, only `_resetPlayer` sets it back to 0, and therefore
failures accumulate toward the 3-failure cap across intervening successful
plays: fail–play–fail–play–fail from the initial state still reaches the cap
and resets to idle. -/
theorem onPlay_preserves_retryCount :
    (∀ s : Player.PlayerState, (Player.onPlay s).1.retryCount = s.retryCount)
  ∧ (∀ s : Player.PlayerState, (Player.resetPlayer s).1.retryCount = 0)
  ∧ ((Player.handlePlaybackError
        ((Player.onPlay ((Player.handlePlaybackError
          ((Player.onPlay ((Player.handlePlaybackError Player.initState "e").1)).1) "e").1)).1)
        "e").1).currSong = none
  ∧ ((Player.handlePlaybackError
        ((Player.onPlay ((Player.handlePlaybackError
          ((Player.onPlay ((Player.handlePlaybackError Player.initState "e").1)).1) "e").1)).1)
        "e").1).retryCount = 0 := by
  refine ⟨fun s => rfl, fun s => rfl, by decide, by decide⟩

end OMusic
